import Mathlib

/-!
Verification of the Elevator-Sketch-Generator geometry/layout engine.

The development shallowly embeds the core of `src/shaft_sketch.py` and
`src/config.py`: the `LiftConfig` record with its derived dimensions and
aggregated construction-time validation (`__post_init__`), the separator and
fire-lift-position policy functions, the plan geometry of
`LiftShaftSketch.__init__` / `_calculate_geometry`, and the wall/separator
draw commands emitted by `_draw_multi_lift_bank`.

Numbers are modelled as exact rationals (the Python code works on floats in
millimetres); Python's `int(x)` truncation toward zero is modelled by `pyInt`,
and Python's `x or default` idiom for numeric keyword arguments by `pyOr`.
-/

namespace ElevatorSketch

/-! ### Constants from `src/config.py` -/

def DEFAULT_SHAFT_WIDTH : ℚ := 2950

def DEFAULT_SHAFT_DEPTH : ℚ := 2300

def DEFAULT_WALL_THICKNESS : ℚ := 200

def DEFAULT_DOOR_WIDTH : ℚ := 1100

def DEFAULT_DOOR_HEIGHT : ℚ := 2100

def DEFAULT_STRUCTURAL_OPENING_WIDTH : ℚ := 1300

def DEFAULT_STRUCTURAL_OPENING_HEIGHT : ℚ := 2200

def DEFAULT_SHARED_WALL_THICKNESS : ℚ := 200

def FIRE_LIFT_MIN_SHAFT_WIDTH : ℚ := 2700

def FIRE_LIFT_DOOR_WIDTH : ℚ := 1200

def DEFAULT_FINISHED_CAR_WIDTH : ℚ := 1900

def DEFAULT_FINISHED_CAR_DEPTH : ℚ := 1600

def DEFAULT_CAR_WALL_THICKNESS : ℚ := 25

def DEFAULT_COUNTERWEIGHT_BRACKET_WIDTH : ℚ := 625

def DEFAULT_CAR_BRACKET_WIDTH : ℚ := 375

def DEFAULT_STEEL_BEAM_WIDTH : ℚ := 150

def DEFAULT_RCC_SEPARATOR_WIDTH : ℚ := 200

def DEFAULT_LIFT_DOOR_THICKNESS : ℚ := 150

def DEFAULT_DOOR_GAP : ℚ := 30

def DEFAULT_DOOR_EXTENSION : ℚ := 100

def DEFAULT_REAR_CLEARANCE : ℚ := 345

def MIN_REAR_CLEARANCE : ℚ := 200

def MRA_CAR_BRACKET_WIDTH : ℚ := 325

def MRA_CW_BRACKET_DEPTH : ℚ := 400

def MRA_CW_GAP : ℚ := 100

def DEFAULT_LOBBY_WIDTH : ℚ := 4000

/-- Modelled from the spec: `shaft_sketch.py` and `streamlit_app.py` reference
`config.FIRE_LIFT_MIN_SHAFT_WIDTH_TELESCOPIC`, `config.TELESCOPIC_LEFT_EXTENSION_EXTRA`
and `config.TELESCOPIC_RIGHT_EXTENSION`, but `src/config.py` does not define them.
The spec only says the telescopic fire-lift shaft-width minimum "differs for
telescopic vs centre doors", that the auto-derived left telescopic extension is
"0.5 x door_width + a fixed extra constant" and the right one "a fixed constant".
They are therefore modelled as an arbitrary fixed triple of rational parameters
over which every statement is universally quantified. -/
structure TelConsts where
  FIRE_LIFT_MIN_SHAFT_WIDTH_TELESCOPIC : ℚ
  TELESCOPIC_LEFT_EXTENSION_EXTRA : ℚ
  TELESCOPIC_RIGHT_EXTENSION : ℚ
  deriving DecidableEq, Repr

/-- Python `int(x)` on a real number: truncation toward zero. -/
def pyInt (q : ℚ) : ℤ := q.num.tdiv q.den

/-- Python `x or d` for an optional numeric keyword argument: `d` when `x` is
`None` or equals `0` (falsy), otherwise `x`. -/
def pyOr (x : Option ℚ) (d : ℚ) : ℚ :=
  match x with
  | some v => if v = 0 then d else v
  | none => d

/-- Python `max(xs)` on a non-empty list (returns `0` on `[]`, a case the
source never reaches). -/
def pyMax : List ℚ → ℚ
  | [] => 0
  | h :: t => t.foldl max h

/-- Fire lift fixed cabin sizes (Width x Depth in mm), compared by the source
against `int()`-truncated car dimensions (`FIRE_LIFT_CABIN_SIZES` in
`shaft_sketch.py`). -/
def FIRE_LIFT_CABIN_SIZES : List (ℤ × ℤ) := [(1400, 2400), (1500, 2300), (1550, 2200)]

/-- The fire-lift cabin whitelist read as exact (width, depth) pairs of real
numbers, the way the spec sentence states it; used only to compare the spec's
wording with the code's `int()`-truncated membership test. -/
def specFireCabinSizes : List (ℚ × ℚ) := [(1400, 2400), (1500, 2300), (1550, 2200)]

/-! ### `LiftConfig` (dataclass in `src/shaft_sketch.py`) -/

/-- Configuration for a single lift; field defaults as in the Python dataclass. -/
structure LiftConfig where
  lift_type : String := "passenger"
  lift_capacity : Option ℤ := none
  lift_machine_type : String := "mrl"
  finished_car_width : ℚ := DEFAULT_FINISHED_CAR_WIDTH
  finished_car_depth : ℚ := DEFAULT_FINISHED_CAR_DEPTH
  counterweight_bracket_width : ℚ := DEFAULT_COUNTERWEIGHT_BRACKET_WIDTH
  car_bracket_width : ℚ := DEFAULT_CAR_BRACKET_WIDTH
  mra_car_bracket_width : ℚ := MRA_CAR_BRACKET_WIDTH
  mra_car_bracket_width_right : Option ℚ := none
  mra_cw_bracket_depth : ℚ := MRA_CW_BRACKET_DEPTH
  shaft_width_override : Option ℚ := none
  shaft_depth_override : Option ℚ := none
  wall_thickness : ℚ := DEFAULT_WALL_THICKNESS
  door_width : ℚ := DEFAULT_DOOR_WIDTH
  door_height : ℚ := DEFAULT_DOOR_HEIGHT
  structural_opening_width : ℚ := DEFAULT_STRUCTURAL_OPENING_WIDTH
  structural_opening_height : ℚ := DEFAULT_STRUCTURAL_OPENING_HEIGHT
  door_panel_thickness : ℚ := DEFAULT_LIFT_DOOR_THICKNESS
  door_extension : ℚ := DEFAULT_DOOR_EXTENSION
  door_opening_type : String := "centre"
  telescopic_left_ext : Option ℚ := none
  telescopic_right_ext : Option ℚ := none
  deriving DecidableEq, Repr

/-- Unfinished car width = finished + 50mm (25mm each side). -/
def LiftConfig.unfinished_car_width (c : LiftConfig) : ℚ :=
  c.finished_car_width + 2 * DEFAULT_CAR_WALL_THICKNESS

/-- Unfinished car depth = finished + 25mm (at top only). -/
def LiftConfig.unfinished_car_depth (c : LiftConfig) : ℚ :=
  c.finished_car_depth + DEFAULT_CAR_WALL_THICKNESS

/-- Right MRA car bracket width (defaults to left if not set). -/
def LiftConfig.mra_right_bracket_width (c : LiftConfig) : ℚ :=
  match c.mra_car_bracket_width_right with
  | some v => v
  | none => c.mra_car_bracket_width

/-- Minimum shaft width from car + brackets, raised to the fire-lift minimum
for fire lifts (telescopic vs centre doors use different minimums). -/
def LiftConfig.min_shaft_width (tc : TelConsts) (c : LiftConfig) : ℚ :=
  let width :=
    if c.lift_machine_type == "mra" then
      c.mra_car_bracket_width + c.unfinished_car_width + c.mra_right_bracket_width
    else
      c.counterweight_bracket_width + c.unfinished_car_width + c.car_bracket_width
  if c.lift_type == "fire" then
    let fire_min :=
      if c.door_opening_type == "telescopic" then tc.FIRE_LIFT_MIN_SHAFT_WIDTH_TELESCOPIC
      else FIRE_LIFT_MIN_SHAFT_WIDTH
    max width fire_min
  else width

/-- Minimum shaft depth from car + doors + clearances. -/
def LiftConfig.min_shaft_depth (c : LiftConfig) : ℚ :=
  if c.lift_machine_type == "mra" then
    2 * c.door_panel_thickness + DEFAULT_DOOR_GAP + c.unfinished_car_depth
      + MRA_CW_GAP + c.mra_cw_bracket_depth
  else
    c.unfinished_car_depth + 2 * c.door_panel_thickness + DEFAULT_DOOR_GAP
      + DEFAULT_REAR_CLEARANCE

/-- Shaft width (override or calculated minimum). -/
def LiftConfig.shaft_width (tc : TelConsts) (c : LiftConfig) : ℚ :=
  match c.shaft_width_override with
  | some v => v
  | none => c.min_shaft_width tc

/-- Effective shaft depth (override or calculated minimum). -/
def LiftConfig.effective_shaft_depth (c : LiftConfig) : ℚ :=
  match c.shaft_depth_override with
  | some v => v
  | none => c.min_shaft_depth

/-- Human readable breakdown of the minimum shaft width components
(`_width_breakdown_str`). -/
def LiftConfig.width_breakdown_str (c : LiftConfig) : String :=
  if c.lift_machine_type == "mra" then
    "Left Bracket (" ++ toString (pyInt c.mra_car_bracket_width) ++ ") + Unfinished Car ("
      ++ toString (pyInt c.unfinished_car_width) ++ ") + Right Bracket ("
      ++ toString (pyInt c.mra_right_bracket_width) ++ ")"
  else
    "CW Bracket (" ++ toString (pyInt c.counterweight_bracket_width) ++ ") + Unfinished Car ("
      ++ toString (pyInt c.unfinished_car_width) ++ ") + Car Bracket ("
      ++ toString (pyInt c.car_bracket_width) ++ ")"

/-- Human readable breakdown of the minimum shaft depth components
(`_depth_breakdown_str`). -/
def LiftConfig.depth_breakdown_str (c : LiftConfig) : String :=
  if c.lift_machine_type == "mra" then
    "2 x Door (" ++ toString (pyInt c.door_panel_thickness) ++ ") + Gap ("
      ++ toString (pyInt DEFAULT_DOOR_GAP) ++ ") + Unfinished Car ("
      ++ toString (pyInt c.unfinished_car_depth) ++ ") + CW Gap ("
      ++ toString (pyInt MRA_CW_GAP) ++ ") + CW Bracket ("
      ++ toString (pyInt c.mra_cw_bracket_depth) ++ ")"
  else
    "Unfinished Car (" ++ toString (pyInt c.unfinished_car_depth) ++ ") + 2 x Door ("
      ++ toString (pyInt c.door_panel_thickness) ++ ") + Gap ("
      ++ toString (pyInt DEFAULT_DOOR_GAP) ++ ") + Rear Clearance ("
      ++ toString (pyInt DEFAULT_REAR_CLEARANCE) ++ ")"

/-! ### `LiftConfig.__post_init__`: mutations and collected validation errors -/

/-- The `", ".join(f"{w}x{d}" ...)` string over the fire cabin whitelist. -/
def valid_sizes_str : String :=
  String.intercalate ", " (FIRE_LIFT_CABIN_SIZES.map (fun p => toString p.1 ++ "x" ++ toString p.2))

/-- Error appended when a fire lift's truncated cabin size is off the whitelist. -/
def fire_cabin_msg (w d : ℤ) : String :=
  "Fire lift must use one of these cabin sizes (WxD): " ++ valid_sizes_str
    ++ ". Got: " ++ toString w ++ "x" ++ toString d

/-- Error appended when a shaft width override is below the computed minimum. -/
def width_below_min_msg (o m : ℤ) (bd : String) : String :=
  "Shaft Width (" ++ toString o ++ "mm) is below minimum (" ++ toString m
    ++ "mm). Minimum = " ++ bd

/-- Error appended when a fire lift's shaft width override is below the fire minimum. -/
def fire_width_msg (o m : ℤ) : String :=
  "Fire lift Shaft Width (" ++ toString o ++ "mm) is below fire lift minimum ("
    ++ toString m ++ "mm)."

/-- Error appended when the structural opening is wider than the overridden shaft. -/
def structural_exceeds_msg (so o : ℤ) : String :=
  "Structural Opening Width (" ++ toString so ++ "mm) exceeds Shaft Width ("
    ++ toString o ++ "mm)."

/-- Error appended when a shaft depth override is below the computed minimum. -/
def depth_below_min_msg (o m : ℤ) (bd : String) : String :=
  "Shaft Depth (" ++ toString o ++ "mm) is below minimum (" ++ toString m
    ++ "mm). Minimum = " ++ bd

/-- Error appended when the MRL rear clearance falls below its minimum. -/
def rear_clearance_msg (r m : ℤ) : String :=
  "MRL Rear Clearance (" ++ toString r ++ "mm) is below minimum (" ++ toString m ++ "mm)."

/-- Error appended when the door is wider than the structural opening. -/
def door_exceeds_msg (dw so : ℤ) : String :=
  "Door Width (" ++ toString dw ++ "mm) exceeds Structural Opening Width ("
    ++ toString so ++ "mm)."

/-- Fire-lift cabin size check of `__post_init__` (first error block). -/
def fireCabinErrs (c : LiftConfig) : List String :=
  if c.lift_type == "fire" then
    let w := pyInt c.finished_car_width
    let d := pyInt c.finished_car_depth
    if (w, d) ∈ FIRE_LIFT_CABIN_SIZES then [] else [fire_cabin_msg w d]
  else []

/-- The `self.door_width = config.FIRE_LIFT_DOOR_WIDTH` mutation performed for
fire lifts inside `__post_init__`. -/
def applyFireDoor (c : LiftConfig) : LiftConfig :=
  if c.lift_type == "fire" then { c with door_width := FIRE_LIFT_DOOR_WIDTH } else c

/-- The `door_opening_type` checks of `__post_init__`. -/
def doorTypeErrs (c : LiftConfig) : List String :=
  (if c.door_opening_type == "centre" || c.door_opening_type == "telescopic" then []
   else ["door_opening_type must be \x27centre\x27 or \x27telescopic\x27, got \x27"
          ++ c.door_opening_type ++ "\x27."])
  ++ (if c.door_opening_type == "telescopic" && c.lift_type != "fire" then
        ["Telescopic door opening is only available for fire lifts."]
      else [])

/-- Auto-calculation of the telescopic extensions when unspecified (a
default-fill, producing no error). -/
def applyTelescopicDefaults (tc : TelConsts) (c : LiftConfig) : LiftConfig :=
  if c.door_opening_type == "telescopic" then
    { c with
      telescopic_left_ext :=
        some (c.telescopic_left_ext.getD
          ((0.5 : ℚ) * c.door_width + tc.TELESCOPIC_LEFT_EXTENSION_EXTRA)),
      telescopic_right_ext :=
        some (c.telescopic_right_ext.getD tc.TELESCOPIC_RIGHT_EXTENSION) }
  else c

/-- Bracket minimum checks of `__post_init__` (MRL vs MRA branch). -/
def bracketErrs (c : LiftConfig) : List String :=
  if c.lift_machine_type == "mrl" then
    (if c.counterweight_bracket_width < DEFAULT_COUNTERWEIGHT_BRACKET_WIDTH then
      ["CW Bracket Width (" ++ toString (pyInt c.counterweight_bracket_width)
        ++ "mm) is below minimum (" ++ toString (pyInt DEFAULT_COUNTERWEIGHT_BRACKET_WIDTH) ++ "mm)."]
     else [])
    ++ (if c.car_bracket_width < DEFAULT_CAR_BRACKET_WIDTH then
      ["Car Bracket Width (" ++ toString (pyInt c.car_bracket_width)
        ++ "mm) is below minimum (" ++ toString (pyInt DEFAULT_CAR_BRACKET_WIDTH) ++ "mm)."]
     else [])
  else
    (if c.mra_car_bracket_width < MRA_CAR_BRACKET_WIDTH then
      ["Left Car Bracket (" ++ toString (pyInt c.mra_car_bracket_width)
        ++ "mm) is below minimum (" ++ toString (pyInt MRA_CAR_BRACKET_WIDTH) ++ "mm)."]
     else [])
    ++ (if c.mra_right_bracket_width < MRA_CAR_BRACKET_WIDTH then
      ["Right Car Bracket (" ++ toString (pyInt c.mra_right_bracket_width)
        ++ "mm) is below minimum (" ++ toString (pyInt MRA_CAR_BRACKET_WIDTH) ++ "mm)."]
     else [])
    ++ (if c.mra_cw_bracket_depth < MRA_CW_BRACKET_DEPTH then
      ["CW Bracket Depth (" ++ toString (pyInt c.mra_cw_bracket_depth)
        ++ "mm) is below minimum (" ++ toString (pyInt MRA_CW_BRACKET_DEPTH) ++ "mm)."]
     else [])

/-- Shaft width override checks of `__post_init__`. -/
def widthOverrideErrs (tc : TelConsts) (c : LiftConfig) : List String :=
  match c.shaft_width_override with
  | none => []
  | some o =>
    (if o < c.min_shaft_width tc then
      [width_below_min_msg (pyInt o) (pyInt (c.min_shaft_width tc)) c.width_breakdown_str]
     else [])
    ++ (if c.lift_type == "fire" then
          let fire_min_w :=
            if c.door_opening_type == "telescopic" then tc.FIRE_LIFT_MIN_SHAFT_WIDTH_TELESCOPIC
            else FIRE_LIFT_MIN_SHAFT_WIDTH
          if o < fire_min_w then [fire_width_msg (pyInt o) (pyInt fire_min_w)] else []
        else [])
    ++ (if o < c.structural_opening_width then
          [structural_exceeds_msg (pyInt c.structural_opening_width) (pyInt o)]
        else [])

/-- Shaft depth override checks of `__post_init__` (including the MRL rear
clearance check, whose conditional-expression both branches amount to
`DEFAULT_REAR_CLEARANCE + (o - min)`). -/
def depthOverrideErrs (c : LiftConfig) : List String :=
  match c.shaft_depth_override with
  | none => []
  | some o =>
    (if o < c.min_shaft_depth then
      [depth_below_min_msg (pyInt o) (pyInt c.min_shaft_depth) c.depth_breakdown_str]
     else [])
    ++ (if c.lift_machine_type == "mrl" then
          let actual_rear :=
            if o ≥ c.min_shaft_depth then DEFAULT_REAR_CLEARANCE + (o - c.min_shaft_depth)
            else DEFAULT_REAR_CLEARANCE - (c.min_shaft_depth - o)
          if actual_rear < MIN_REAR_CLEARANCE then
            [rear_clearance_msg (pyInt actual_rear) (pyInt MIN_REAR_CLEARANCE)]
          else []
        else [])

/-- Final door-vs-structural-opening check of `__post_init__`, evaluated on the
(possibly overwritten) door width. -/
def doorWidthErrs (c : LiftConfig) : List String :=
  if c.door_width > c.structural_opening_width then
    [door_exceeds_msg (pyInt c.door_width) (pyInt c.structural_opening_width)]
  else []

/-- The object state after the two in-place mutations of `__post_init__`
(fire door width overwrite, then telescopic default fill). -/
def staged (tc : TelConsts) (c : LiftConfig) : LiftConfig :=
  applyTelescopicDefaults tc (applyFireDoor c)

/-- All validation errors collected by `__post_init__`, in source order; the
field reads of each block happen after the mutations that precede it in the
source, hence the `applyFireDoor`/`staged` stages. -/
def validationErrors (tc : TelConsts) (c : LiftConfig) : List String :=
  fireCabinErrs c
    ++ doorTypeErrs (applyFireDoor c)
    ++ bracketErrs (staged tc c)
    ++ widthOverrideErrs tc (staged tc c)
    ++ depthOverrideErrs (staged tc c)
    ++ doorWidthErrs (staged tc c)

/-- `__post_init__` as a constructor: the fully-mutated object when no rule is
violated, otherwise the list of every violated rule's message. -/
def postInitE (tc : TelConsts) (c : LiftConfig) : Except (List String) LiftConfig :=
  if validationErrors tc c = [] then .ok (staged tc c) else .error (validationErrors tc c)

/-- `__post_init__` with the single aggregated `ValueError` message the source
raises. -/
def postInit (tc : TelConsts) (c : LiftConfig) : Except String LiftConfig :=
  match postInitE tc c with
  | .ok c' => .ok c'
  | .error es =>
      .error ("LiftConfig validation failed:\n  - " ++ String.intercalate "\n  - " es)

/-! ### Separator and arrangement policy (`src/shaft_sketch.py`) -/

/-- Ensure fire lifts are only at position 0: the source iterates with
`enumerate` and raises at the first fire lift whose index is not 0. -/
def validate_fire_lift_positions (lifts : List LiftConfig) : Except String Unit :=
  match lifts.enum.find? (fun p => p.2.lift_type == "fire" && p.1 != 0) with
  | some p =>
      .error ("Fire lift at position " ++ toString p.1
        ++ " is invalid. Fire lifts must be at position 0 (first position).")
  | none => .ok ()

/-- Separator type: RCC wall for separate shafts, RCC wall when a fire lift is
present in a common shaft, steel beam otherwise. -/
def determine_separator_type (lifts : List LiftConfig) (is_common_shaft : Bool) : String :=
  if !is_common_shaft then "rcc_wall"
  else if lifts.any (fun l => l.lift_type == "fire") then "rcc_wall"
  else "steel_beam"

/-! ### Plan geometry: `LiftShaftSketch.__init__` and `_calculate_geometry`
(enhanced API; the backward-compatible simple API path, taken when `lifts` is
empty, is outside the claims and not modelled) -/

/-- The geometry attributes `LiftShaftSketch.__init__`/`_calculate_geometry`
compute before any drawing happens. -/
structure SketchGeom where
  num_lifts : ℕ
  num_lifts_bank2 : ℕ
  shaft_widths : List ℚ
  shaft_depths : List ℚ
  shaft_widths_bank2 : List ℚ
  shaft_depths_bank2 : List ℚ
  shaft_depth : ℚ
  max_shaft_depth_bank2 : ℚ
  wall_thickness : ℚ
  shared_wall_thickness : ℚ
  shared_wall_thickness_bank2 : ℚ
  lobby_width : ℚ
  steel_beam_width : ℚ
  separator_type : String
  separator_type_bank2 : String
  is_facing : Bool
  total_width : ℚ
  total_depth : ℚ
  bank1_width : ℚ
  bank2_width : ℚ
  bank1_y : ℚ
  bank2_y : ℚ
  deriving DecidableEq, Repr

/-- Bank width formula of `_calculate_geometry`: one lift gets
`shaft_width + 2*wt`, several get `2*wt + sum + (n-1)*separator`. -/
def bankWidth (wt swt : ℚ) (widths : List ℚ) : ℚ :=
  if widths.length == 1 then widths.headD 0 + 2 * wt
  else 2 * wt + widths.sum + ((widths.length - 1 : ℕ) : ℚ) * swt

/-- The shaft depth `__init__` resolves: the explicit (truthy) `shaft_depth`
argument when given, otherwise the maximum per-lift effective depth. -/
def resolvedShaftDepth (sdp : Option ℚ) (lifts : List LiftConfig) : ℚ :=
  match sdp with
  | some s => if s = 0 then pyMax (lifts.map LiftConfig.effective_shaft_depth) else s
  | none => pyMax (lifts.map LiftConfig.effective_shaft_depth)

/-- The per-lift shaft depth list `__init__` stores: all overridden by a
truthy explicit `shaft_depth`, otherwise each lift's effective depth. -/
def resolvedShaftDepths (sdp : Option ℚ) (lifts : List LiftConfig) : List ℚ :=
  match sdp with
  | some s =>
      if s = 0 then lifts.map LiftConfig.effective_shaft_depth
      else List.replicate lifts.length s
  | none => lifts.map LiftConfig.effective_shaft_depth

/-- The shared wall thickness `__init__` resolves for a bank: the steel beam
width for a steel-beam separator, otherwise the explicit shared thickness or
the wall thickness. -/
def resolvedSWT (swtp sbwp : Option ℚ) (wt : ℚ) (sepT : String) : ℚ :=
  if sepT == "steel_beam" then pyOr sbwp DEFAULT_STEEL_BEAM_WIDTH else pyOr swtp wt

/-- The geometry `__init__`/`_calculate_geometry` compute for a facing
arrangement (both banks present). -/
def facingGeom (tc : TelConsts) (lifts lifts_bank2 : List LiftConfig)
    (sdp wtp swtp lwp sbwp : Option ℚ) (ics : Bool) : SketchGeom :=
  { num_lifts := lifts.length
    num_lifts_bank2 := lifts_bank2.length
    shaft_widths := lifts.map (LiftConfig.shaft_width tc)
    shaft_depths := resolvedShaftDepths sdp lifts
    shaft_widths_bank2 := lifts_bank2.map (LiftConfig.shaft_width tc)
    shaft_depths_bank2 := lifts_bank2.map LiftConfig.effective_shaft_depth
    shaft_depth := resolvedShaftDepth sdp lifts
    max_shaft_depth_bank2 := pyMax (lifts_bank2.map LiftConfig.effective_shaft_depth)
    wall_thickness := pyOr wtp DEFAULT_WALL_THICKNESS
    shared_wall_thickness := resolvedSWT swtp sbwp (pyOr wtp DEFAULT_WALL_THICKNESS)
      (determine_separator_type lifts ics)
    shared_wall_thickness_bank2 := resolvedSWT swtp sbwp (pyOr wtp DEFAULT_WALL_THICKNESS)
      (determine_separator_type lifts_bank2 ics)
    lobby_width := pyOr lwp DEFAULT_LOBBY_WIDTH
    steel_beam_width := pyOr sbwp DEFAULT_STEEL_BEAM_WIDTH
    separator_type := determine_separator_type lifts ics
    separator_type_bank2 := determine_separator_type lifts_bank2 ics
    is_facing := true
    total_width := max
      (bankWidth (pyOr wtp DEFAULT_WALL_THICKNESS)
        (resolvedSWT swtp sbwp (pyOr wtp DEFAULT_WALL_THICKNESS)
          (determine_separator_type lifts ics))
        (lifts.map (LiftConfig.shaft_width tc)))
      (bankWidth (pyOr wtp DEFAULT_WALL_THICKNESS)
        (resolvedSWT swtp sbwp (pyOr wtp DEFAULT_WALL_THICKNESS)
          (determine_separator_type lifts_bank2 ics))
        (lifts_bank2.map (LiftConfig.shaft_width tc)))
    total_depth := (resolvedShaftDepth sdp lifts + 2 * pyOr wtp DEFAULT_WALL_THICKNESS)
      + pyOr lwp DEFAULT_LOBBY_WIDTH
      + (pyMax (lifts_bank2.map LiftConfig.effective_shaft_depth)
          + 2 * pyOr wtp DEFAULT_WALL_THICKNESS)
    bank1_width := bankWidth (pyOr wtp DEFAULT_WALL_THICKNESS)
      (resolvedSWT swtp sbwp (pyOr wtp DEFAULT_WALL_THICKNESS)
        (determine_separator_type lifts ics))
      (lifts.map (LiftConfig.shaft_width tc))
    bank2_width := bankWidth (pyOr wtp DEFAULT_WALL_THICKNESS)
      (resolvedSWT swtp sbwp (pyOr wtp DEFAULT_WALL_THICKNESS)
        (determine_separator_type lifts_bank2 ics))
      (lifts_bank2.map (LiftConfig.shaft_width tc))
    bank1_y := (pyMax (lifts_bank2.map LiftConfig.effective_shaft_depth)
        + 2 * pyOr wtp DEFAULT_WALL_THICKNESS) + pyOr lwp DEFAULT_LOBBY_WIDTH
    bank2_y := 0 }

/-- The geometry `__init__`/`_calculate_geometry` compute for a single inline
bank (no second bank). -/
def inlineGeom (tc : TelConsts) (lifts : List LiftConfig)
    (sdp wtp swtp lwp sbwp : Option ℚ) (ics : Bool) : SketchGeom :=
  { num_lifts := lifts.length
    num_lifts_bank2 := 0
    shaft_widths := lifts.map (LiftConfig.shaft_width tc)
    shaft_depths := resolvedShaftDepths sdp lifts
    shaft_widths_bank2 := []
    shaft_depths_bank2 := []
    shaft_depth := resolvedShaftDepth sdp lifts
    max_shaft_depth_bank2 := 0
    wall_thickness := pyOr wtp DEFAULT_WALL_THICKNESS
    shared_wall_thickness := resolvedSWT swtp sbwp (pyOr wtp DEFAULT_WALL_THICKNESS)
      (determine_separator_type lifts ics)
    shared_wall_thickness_bank2 := 0
    lobby_width := pyOr lwp DEFAULT_LOBBY_WIDTH
    steel_beam_width := pyOr sbwp DEFAULT_STEEL_BEAM_WIDTH
    separator_type := determine_separator_type lifts ics
    separator_type_bank2 := ""
    is_facing := false
    total_width := bankWidth (pyOr wtp DEFAULT_WALL_THICKNESS)
      (resolvedSWT swtp sbwp (pyOr wtp DEFAULT_WALL_THICKNESS)
        (determine_separator_type lifts ics))
      (lifts.map (LiftConfig.shaft_width tc))
    total_depth := resolvedShaftDepth sdp lifts + 2 * pyOr wtp DEFAULT_WALL_THICKNESS
    bank1_width := bankWidth (pyOr wtp DEFAULT_WALL_THICKNESS)
      (resolvedSWT swtp sbwp (pyOr wtp DEFAULT_WALL_THICKNESS)
        (determine_separator_type lifts ics))
      (lifts.map (LiftConfig.shaft_width tc))
    bank2_width := 0
    bank1_y := 0
    bank2_y := 0 }

/-- `LiftShaftSketch.__init__` (enhanced API) followed by
`_calculate_geometry`: bank count guards, fire-position validation, then the
facing or inline geometry. -/
def mkSketch (tc : TelConsts) (lifts lifts_bank2 : List LiftConfig)
    (shaft_depth wall_thickness shared_wall_thickness lobby_width steel_beam_width : Option ℚ)
    (is_common_shaft : Bool) : Except String SketchGeom :=
  if lifts.length > 4 then
    .error ("Max 4 lifts per bank (Bank 1 has " ++ toString lifts.length ++ ")")
  else if lifts_bank2.length > 4 then
    .error ("Max 4 lifts per bank (Bank 2 has " ++ toString lifts_bank2.length ++ ")")
  else
    match validate_fire_lift_positions lifts with
    | .error e => .error e
    | .ok _ =>
      if !lifts_bank2.isEmpty then
        match validate_fire_lift_positions lifts_bank2 with
        | .error e => .error e
        | .ok _ =>
            .ok (facingGeom tc lifts lifts_bank2 shaft_depth wall_thickness
              shared_wall_thickness lobby_width steel_beam_width is_common_shaft)
      else
        .ok (inlineGeom tc lifts shaft_depth wall_thickness
          shared_wall_thickness lobby_width steel_beam_width is_common_shaft)

/-- `_draw_bank` centres a bank horizontally when it is narrower than the
total envelope: `x_offset = (self.total_width - bank_width) / 2`. -/
def bank_x_offset (g : SketchGeom) (bank_width : ℚ) : ℚ :=
  (g.total_width - bank_width) / 2

/-! ### Wall/separator draw commands of `_draw_multi_lift_bank` -/

/-- A drawing primitive call with its rectangle `(x, y, width, height)`; the
`y` axis points from the front (door) wall toward the back wall. -/
inductive DrawCmd where
  | wallSection (x y w h : ℚ)
  | steelBeam (x y w h : ℚ)
  | interior (x y w h : ℚ)
  deriving DecidableEq, Repr

/-- Separator commands emitted between two adjacent lifts at boundary `x`:
the separator extends to the shallower depth (`min`), a steel beam gets
explicit front/back wall pieces of height `wt` while an RCC wall is drawn as
one rectangle of height `min + 2*wt`, and when the depths differ an extra
L-shape wall segment of height `deeper - min` closes the deeper lift's side
(left edge of the boundary when the previous lift is deeper, right edge when
the current one is). -/
def sep_pieces (separator_type : String) (wt swt x prev_depth curr_depth : ℚ) : List DrawCmd :=
  let separator_depth := min prev_depth curr_depth
  (if separator_type == "steel_beam" then
    [.steelBeam x wt swt separator_depth,
     .wallSection x 0 swt wt,
     .wallSection x (wt + separator_depth) swt wt]
   else
    [.wallSection x 0 swt (separator_depth + 2 * wt)])
  ++ (if prev_depth > curr_depth then
        [.wallSection x (wt + separator_depth + wt) wt (prev_depth - separator_depth)]
      else [])
  ++ (if curr_depth > prev_depth then
        [.wallSection (x + swt - wt) (wt + separator_depth + wt) wt (curr_depth - separator_depth)]
      else [])

/-- The loop body of `_draw_multi_lift_bank` for the lifts after the first:
each step draws the separator against the previous lift, this lift's interior
and back wall, and advances `x_pos` by `swt + sw`; when the list is exhausted
the right outer wall is drawn at the final `x_pos` using the last lift's
depth. Lifts are `(shaft_width, shaft_depth)` pairs. -/
def multi_bank_walk (separator_type : String) (wt swt : ℚ) :
    ℚ → ℚ → List (ℚ × ℚ) → List DrawCmd
  | x, prev, [] => [.wallSection x 0 wt (prev + 2 * wt)]
  | x, prev, (sw, sd) :: rest =>
      sep_pieces separator_type wt swt x prev sd
        ++ [.interior (x + swt) wt sw sd, .wallSection (x + swt) (wt + sd) sw wt]
        ++ multi_bank_walk separator_type wt swt (x + swt + sw) sd rest

/-- The wall, separator, interior and back-wall rectangles emitted by
`_draw_multi_lift_bank` for a bank of lifts given as `(width, depth)` pairs
(the per-lift front-wall/opening/door commands, which do not participate in
the separator geometry, are not modelled). -/
def draw_multi_lift_bank_walls (separator_type : String) (wt swt : ℚ)
    (lifts : List (ℚ × ℚ)) : List DrawCmd :=
  match lifts with
  | [] => []
  | (sw, sd) :: rest =>
      [.wallSection 0 0 wt (sd + 2 * wt),
       .interior wt wt sw sd, .wallSection wt (wt + sd) sw wt]
        ++ multi_bank_walk separator_type wt swt (wt + sw) sd rest

/-! ### Basic lemmas about the `__post_init__` stages -/

theorem applyFireDoor_ov (c : LiftConfig) :
    applyFireDoor { c with shaft_width_override := none }
      = { applyFireDoor c with shaft_width_override := none } := by
  unfold applyFireDoor
  by_cases h : c.lift_type = "fire" <;> simp [h]

theorem applyTelescopicDefaults_ov (tc : TelConsts) (c : LiftConfig) :
    applyTelescopicDefaults tc { c with shaft_width_override := none }
      = { applyTelescopicDefaults tc c with shaft_width_override := none } := by
  unfold applyTelescopicDefaults
  by_cases h : c.door_opening_type = "telescopic" <;> simp [h]

theorem staged_ov (tc : TelConsts) (c : LiftConfig) :
    staged tc { c with shaft_width_override := none }
      = { staged tc c with shaft_width_override := none } := by
  unfold staged
  rw [applyFireDoor_ov, applyTelescopicDefaults_ov]

theorem staged_shaft_width_override (tc : TelConsts) (c : LiftConfig) :
    (staged tc c).shaft_width_override = c.shaft_width_override := by
  unfold staged applyTelescopicDefaults applyFireDoor
  by_cases h1 : c.lift_type = "fire" <;> by_cases h2 : c.door_opening_type = "telescopic" <;>
    simp [h1, h2]

theorem staged_lift_type (tc : TelConsts) (c : LiftConfig) :
    (staged tc c).lift_type = c.lift_type := by
  unfold staged applyTelescopicDefaults applyFireDoor
  by_cases h1 : c.lift_type = "fire" <;> by_cases h2 : c.door_opening_type = "telescopic" <;>
    simp [h1, h2]

theorem staged_door_opening_type (tc : TelConsts) (c : LiftConfig) :
    (staged tc c).door_opening_type = c.door_opening_type := by
  unfold staged applyTelescopicDefaults applyFireDoor
  by_cases h1 : c.lift_type = "fire" <;> by_cases h2 : c.door_opening_type = "telescopic" <;>
    simp [h1, h2]

theorem staged_structural_opening_width (tc : TelConsts) (c : LiftConfig) :
    (staged tc c).structural_opening_width = c.structural_opening_width := by
  unfold staged applyTelescopicDefaults applyFireDoor
  by_cases h1 : c.lift_type = "fire" <;> by_cases h2 : c.door_opening_type = "telescopic" <;>
    simp [h1, h2]

theorem staged_min_shaft_width (tc : TelConsts) (c : LiftConfig) :
    (staged tc c).min_shaft_width tc = c.min_shaft_width tc := by
  unfold staged applyTelescopicDefaults applyFireDoor LiftConfig.min_shaft_width
    LiftConfig.unfinished_car_width LiftConfig.mra_right_bracket_width
  by_cases h1 : c.lift_type = "fire" <;> by_cases h2 : c.door_opening_type = "telescopic" <;>
    simp [h1, h2]

theorem staged_width_breakdown_str (tc : TelConsts) (c : LiftConfig) :
    (staged tc c).width_breakdown_str = c.width_breakdown_str := by
  unfold staged applyTelescopicDefaults applyFireDoor LiftConfig.width_breakdown_str
    LiftConfig.unfinished_car_width LiftConfig.mra_right_bracket_width
  by_cases h1 : c.lift_type = "fire" <;> by_cases h2 : c.door_opening_type = "telescopic" <;>
    simp [h1, h2]

theorem staged_door_width (tc : TelConsts) (c : LiftConfig) :
    (staged tc c).door_width = if c.lift_type = "fire" then FIRE_LIFT_DOOR_WIDTH else c.door_width := by
  unfold staged applyTelescopicDefaults applyFireDoor
  by_cases h1 : c.lift_type = "fire" <;> by_cases h2 : c.door_opening_type = "telescopic" <;>
    simp [h1, h2]

theorem postInitE_ok_iff (tc : TelConsts) (c c' : LiftConfig) :
    postInitE tc c = .ok c' ↔ (validationErrors tc c = [] ∧ c' = staged tc c) := by
  unfold postInitE
  split
  · rename_i h
    simp only [Except.ok.injEq, h, true_and]
    exact ⟨fun h' => h'.symm, fun h' => h'.symm⟩
  · rename_i h
    simp [h]

theorem validationErrors_eq_nil_iff (tc : TelConsts) (c : LiftConfig) :
    validationErrors tc c = [] ↔
      fireCabinErrs c = [] ∧ doorTypeErrs (applyFireDoor c) = []
        ∧ bracketErrs (staged tc c) = [] ∧ widthOverrideErrs tc (staged tc c) = []
        ∧ depthOverrideErrs (staged tc c) = [] ∧ doorWidthErrs (staged tc c) = [] := by
  unfold validationErrors
  simp [List.append_eq_nil, and_assoc]

/-- When the width-override block is silent, the override is at least the
computed minimum and at least the structural opening width. -/
theorem widthOverrideErrs_eq_nil (tc : TelConsts) (s : LiftConfig) (o : ℚ)
    (hso : s.shaft_width_override = some o) (h : widthOverrideErrs tc s = []) :
    s.min_shaft_width tc ≤ o ∧ s.structural_opening_width ≤ o := by
  constructor
  · by_contra hlt
    rw [not_le] at hlt
    have hne : widthOverrideErrs tc s ≠ [] := by
      simp [widthOverrideErrs, hso, hlt, List.append_eq_nil]
    exact hne h
  · by_contra hlt
    rw [not_le] at hlt
    have hne : widthOverrideErrs tc s ≠ [] := by
      simp [widthOverrideErrs, hso, hlt, List.append_eq_nil]
    exact hne h

/-- C1: for every `LiftConfig` whose construction succeeds, `shaft_width` is at
least `min_shaft_width`; and when no `shaft_width_override` was supplied,
`shaft_width` equals `min_shaft_width` exactly. -/
theorem c1_min_width_invariant (tc : TelConsts) (c c' : LiftConfig)
    (h : postInitE tc c = .ok c') :
    c'.min_shaft_width tc ≤ c'.shaft_width tc ∧
      (c.shaft_width_override = none → c'.shaft_width tc = c'.min_shaft_width tc) := by
  obtain ⟨hv, rfl⟩ := (postInitE_ok_iff tc c c').1 h
  have hov := staged_shaft_width_override tc c
  cases hso : (staged tc c).shaft_width_override with
  | none =>
      unfold LiftConfig.shaft_width
      rw [hso]
      exact ⟨le_refl _, fun _ => rfl⟩
  | some o =>
      have hw := ((validationErrors_eq_nil_iff tc c).1 hv).2.2.2.1
      have hle := (widthOverrideErrs_eq_nil tc (staged tc c) o hso hw).1
      constructor
      · unfold LiftConfig.shaft_width
        rw [hso]
        exact hle
      · intro hnone
        rw [hnone] at hov
        rw [hov] at hso
        exact absurd hso (Option.noConfusion)

/-- C1 witness: the default passenger configuration constructs successfully
with `shaft_width = min_shaft_width = 2950`. -/
theorem c1_min_width_invariant_witness :
    LiftConfig.min_shaft_width ⟨2700, 100, 200⟩ { } ≤ LiftConfig.shaft_width ⟨2700, 100, 200⟩ { } ∧
      (({ } : LiftConfig).shaft_width_override = none →
        LiftConfig.shaft_width ⟨2700, 100, 200⟩ { } = LiftConfig.min_shaft_width ⟨2700, 100, 200⟩ { }) :=
  c1_min_width_invariant ⟨2700, 100, 200⟩ { } { } rfl

/-- The fire-lift minimum width is folded into `min_shaft_width` for fire
lifts (it is a `max`), so an override at least `min_shaft_width` also clears
the separate fire-minimum re-check of `__post_init__`. -/
theorem fire_min_le_min_shaft_width (tc : TelConsts) (s : LiftConfig) (hf : s.lift_type = "fire") :
    (if s.door_opening_type == "telescopic" then tc.FIRE_LIFT_MIN_SHAFT_WIDTH_TELESCOPIC
      else FIRE_LIFT_MIN_SHAFT_WIDTH) ≤ s.min_shaft_width tc := by
  unfold LiftConfig.min_shaft_width
  simp only [hf]
  by_cases h2 : s.door_opening_type = "telescopic" <;>
    by_cases h3 : s.lift_machine_type = "mra" <;> simp [h2, h3, le_max_right]

/-- Removing the shaft-width override silences exactly the width-override
block and leaves every other validation block unchanged. -/
theorem validationErrors_override_none (tc : TelConsts) (c : LiftConfig) :
    validationErrors tc { c with shaft_width_override := none } =
      fireCabinErrs c ++ doorTypeErrs (applyFireDoor c) ++ bracketErrs (staged tc c)
        ++ depthOverrideErrs (staged tc c) ++ doorWidthErrs (staged tc c) := by
  unfold validationErrors
  rw [staged_ov, applyFireDoor_ov]
  have h : widthOverrideErrs tc { staged tc c with shaft_width_override := none } = [] := rfl
  rw [h, List.append_nil]
  rfl

/-- C2 counterexample: the claim's success direction is false as stated. With
otherwise-valid parameters (`structural_opening_width = 3000`, everything else
default) an override of `2950 = min_shaft_width` is not below the minimum, yet
construction fails on the structural-opening-fits-in-shaft check; the same
parameters without the override construct fine. -/
theorem c2_override_floor_counterexample :
    LiftConfig.min_shaft_width ⟨2700, 100, 200⟩
        { structural_opening_width := 3000, shaft_width_override := some 2950 } ≤ 2950 ∧
    postInitE ⟨2700, 100, 200⟩ ({ structural_opening_width := 3000 } : LiftConfig)
      = .ok { structural_opening_width := 3000 } ∧
    postInitE ⟨2700, 100, 200⟩
        { structural_opening_width := 3000, shaft_width_override := some 2950 }
      = .error ["Structural Opening Width (3000mm) exceeds Shaft Width (2950mm)."] :=
  ⟨by with_unfolding_all decide, rfl, by with_unfolding_all rfl⟩

/-- C2 (amended): supplying `shaft_width_override` below `min_shaft_width`
always fails and the error list contains the message naming both the override
value and the computed minimum; supplying an override that is at least
`min_shaft_width` *and at least `structural_opening_width`* (with
otherwise-valid parameters) succeeds and the resulting `shaft_width` equals
the override. (The claim as frozen omits the structural-opening condition;
the counterexample shows it is needed.) -/
theorem c2_override_floor (tc : TelConsts) (c : LiftConfig) (o : ℚ)
    (hso : c.shaft_width_override = some o) :
    (o < c.min_shaft_width tc →
      ∃ es, postInitE tc c = .error es ∧
        width_below_min_msg (pyInt o) (pyInt (c.min_shaft_width tc)) c.width_breakdown_str ∈ es) ∧
    (c.min_shaft_width tc ≤ o → c.structural_opening_width ≤ o →
      (∃ c₀, postInitE tc { c with shaft_width_override := none } = .ok c₀) →
      ∃ c', postInitE tc c = .ok c' ∧ c'.shaft_width tc = o) := by
  have hso' : (staged tc c).shaft_width_override = some o := by
    rw [staged_shaft_width_override]; exact hso
  constructor
  · intro hlt
    have hmem : width_below_min_msg (pyInt o) (pyInt (c.min_shaft_width tc)) c.width_breakdown_str
        ∈ widthOverrideErrs tc (staged tc c) := by
      simp only [widthOverrideErrs, hso', staged_min_shaft_width, staged_width_breakdown_str]
      simp [hlt]
    have hmem' : width_below_min_msg (pyInt o) (pyInt (c.min_shaft_width tc)) c.width_breakdown_str
        ∈ validationErrors tc c := by
      unfold validationErrors
      simp only [List.mem_append]
      exact Or.inl (Or.inl (Or.inr hmem))
    have hne : validationErrors tc c ≠ [] := by
      intro h0
      rw [h0] at hmem'
      exact absurd hmem' (List.not_mem_nil _)
    refine ⟨validationErrors tc c, ?_, hmem'⟩
    unfold postInitE
    rw [if_neg hne]
  · intro hmin hsow hok0
    obtain ⟨c₀, hok0⟩ := hok0
    have hv0 := ((postInitE_ok_iff tc _ c₀).1 hok0).1
    rw [validationErrors_override_none] at hv0
    simp only [List.append_eq_nil] at hv0
    obtain ⟨⟨⟨⟨h1, h2⟩, h3⟩, h5⟩, h6⟩ := hv0
    have hwidth : widthOverrideErrs tc (staged tc c) = [] := by
      have hn1 : ¬ o < (staged tc c).min_shaft_width tc := by
        rw [staged_min_shaft_width]; exact not_lt.mpr hmin
      have hn3 : ¬ o < (staged tc c).structural_opening_width := by
        rw [staged_structural_opening_width]; exact not_lt.mpr hsow
      simp only [widthOverrideErrs, hso']
      by_cases hf : (staged tc c).lift_type = "fire"
      · have hfire := fire_min_le_min_shaft_width tc (staged tc c) hf
        rw [staged_min_shaft_width] at hfire
        by_cases ht : (staged tc c).door_opening_type = "telescopic"
        · rw [if_pos (by simp [ht])] at hfire
          have hn2 : ¬ o < tc.FIRE_LIFT_MIN_SHAFT_WIDTH_TELESCOPIC :=
            not_lt.mpr (le_trans hfire hmin)
          simp [hf, ht, hn1, hn2, hn3]
        · rw [if_neg (by simp [ht])] at hfire
          have hn2 : ¬ o < FIRE_LIFT_MIN_SHAFT_WIDTH :=
            not_lt.mpr (le_trans hfire hmin)
          simp [hf, ht, hn1, hn2, hn3]
      · simp [hf, hn1, hn3]
    have hall : validationErrors tc c = [] := by
      rw [validationErrors_eq_nil_iff]
      exact ⟨h1, h2, h3, hwidth, h5, h6⟩
    refine ⟨staged tc c, ?_, ?_⟩
    · unfold postInitE
      rw [if_pos hall]
    · unfold LiftConfig.shaft_width
      rw [hso']

/-- C2 witness: an override of 2600 on the default passenger lift fails with
the message naming 2600 and the minimum 2950; an override of 3000 succeeds
with `shaft_width = 3000`. -/
theorem c2_override_floor_witness :
    (∃ es, postInitE ⟨2700, 100, 200⟩ ({ shaft_width_override := some 2600 } : LiftConfig)
        = .error es ∧
      width_below_min_msg (pyInt (2600 : ℚ))
        (pyInt (LiftConfig.min_shaft_width ⟨2700, 100, 200⟩ { shaft_width_override := some 2600 }))
        (LiftConfig.width_breakdown_str { shaft_width_override := some 2600 }) ∈ es) ∧
    (∃ c', postInitE ⟨2700, 100, 200⟩ ({ shaft_width_override := some 3000 } : LiftConfig)
        = .ok c' ∧ c'.shaft_width ⟨2700, 100, 200⟩ = 3000) :=
  ⟨(c2_override_floor ⟨2700, 100, 200⟩ { shaft_width_override := some 2600 } 2600 rfl).1
      (by with_unfolding_all decide),
   (c2_override_floor ⟨2700, 100, 200⟩ { shaft_width_override := some 3000 } 3000 rfl).2
      (by with_unfolding_all decide) (by with_unfolding_all decide) ⟨{ }, rfl⟩⟩

/-- C3: construction collects every violated rule: it succeeds exactly when no
rule fires; on any violation it raises the single aggregated message listing
the whole collected error list; and each validation block's messages all reach
the final list (so it never rejects on the first violated rule alone). No
partially-validated object escapes: the `Except` result carries a config only
in the success case. -/
theorem c3_errors_aggregated (tc : TelConsts) (c : LiftConfig) :
    ((∃ c', postInit tc c = .ok c') ↔ validationErrors tc c = []) ∧
    (validationErrors tc c ≠ [] →
      postInit tc c = .error
        ("LiftConfig validation failed:\n  - "
          ++ String.intercalate "\n  - " (validationErrors tc c))) ∧
    (∀ e, (e ∈ fireCabinErrs c ∨ e ∈ doorTypeErrs (applyFireDoor c)
        ∨ e ∈ bracketErrs (staged tc c) ∨ e ∈ widthOverrideErrs tc (staged tc c)
        ∨ e ∈ depthOverrideErrs (staged tc c) ∨ e ∈ doorWidthErrs (staged tc c)) →
      e ∈ validationErrors tc c) := by
  refine ⟨⟨?_, ?_⟩, ?_, ?_⟩
  · rintro ⟨c', h⟩
    by_contra hv
    unfold postInit postInitE at h
    rw [if_neg hv] at h
    exact Except.noConfusion h
  · intro hv
    refine ⟨staged tc c, ?_⟩
    unfold postInit postInitE
    rw [if_pos hv]
  · intro hv
    unfold postInit postInitE
    rw [if_neg hv]
  · intro e he
    unfold validationErrors
    simp only [List.mem_append]
    tauto

/-- C3 witness: a config violating both the CW-bracket minimum and the
door-vs-structural-opening rule fails with one message listing both
violations. -/
theorem c3_errors_aggregated_witness :
    postInit ⟨2700, 100, 200⟩
        ({ counterweight_bracket_width := 600, door_width := 1400 } : LiftConfig)
      = .error "LiftConfig validation failed:\n  - CW Bracket Width (600mm) is below minimum (625mm).\n  - Door Width (1400mm) exceeds Structural Opening Width (1300mm)." := by
  have h := (c3_errors_aggregated ⟨2700, 100, 200⟩
    { counterweight_bracket_width := 600, door_width := 1400 }).2.1 (by decide)
  rw [h]
  with_unfolding_all rfl

/-- Parameters of a config are "otherwise valid" when every validation block
except the fire-cabin whitelist is silent. -/
def otherBlocksOK (tc : TelConsts) (c : LiftConfig) : Prop :=
  doorTypeErrs (applyFireDoor c) = [] ∧ bracketErrs (staged tc c) = []
    ∧ widthOverrideErrs tc (staged tc c) = [] ∧ depthOverrideErrs (staged tc c) = []
    ∧ doorWidthErrs (staged tc c) = []

instance (tc : TelConsts) (c : LiftConfig) : Decidable (otherBlocksOK tc c) := by
  unfold otherBlocksOK
  infer_instance

/-- C4 counterexample: the claim's failure direction is false as stated. The
pair `(1400.5, 2400)` is not one of the three whitelisted cabin sizes, yet a
fire lift with those dimensions constructs successfully, because the source
compares the `int()`-truncated pair `(1400, 2400)`, which is whitelisted. -/
theorem c4_fire_whitelist_counterexample :
    (((2801 : ℚ)/2, (2400 : ℚ)) ∉ specFireCabinSizes) ∧
    postInitE ⟨2700, 100, 200⟩
        ({ lift_type := "fire", finished_car_width := 2801/2, finished_car_depth := 2400 } : LiftConfig)
      = .ok { lift_type := "fire", finished_car_width := 2801/2, finished_car_depth := 2400,
              door_width := FIRE_LIFT_DOOR_WIDTH } :=
  ⟨by with_unfolding_all decide, by with_unfolding_all rfl⟩

/-- C4 (amended): a fire-lift construction fails (with the cabin-size message
collected) iff the `int()`-truncated pair `(int(finished_car_width),
int(finished_car_depth))` is off the whitelist, and succeeds with
otherwise-valid parameters when the truncated pair is whitelisted. (The claim
as frozen uses exact pair membership, which the counterexample refutes: the
code truncates before comparing.) -/
theorem c4_fire_whitelist (tc : TelConsts) (c : LiftConfig) (hf : c.lift_type = "fire") :
    ((pyInt c.finished_car_width, pyInt c.finished_car_depth) ∉ FIRE_LIFT_CABIN_SIZES →
      ∃ es, postInitE tc c = .error es ∧
        fire_cabin_msg (pyInt c.finished_car_width) (pyInt c.finished_car_depth) ∈ es) ∧
    ((pyInt c.finished_car_width, pyInt c.finished_car_depth) ∈ FIRE_LIFT_CABIN_SIZES →
      otherBlocksOK tc c → ∃ c', postInitE tc c = .ok c') := by
  constructor
  · intro hnot
    have hmem : fire_cabin_msg (pyInt c.finished_car_width) (pyInt c.finished_car_depth)
        ∈ fireCabinErrs c := by
      simp [fireCabinErrs, hf, hnot]
    have hmem' : fire_cabin_msg (pyInt c.finished_car_width) (pyInt c.finished_car_depth)
        ∈ validationErrors tc c := by
      unfold validationErrors
      simp only [List.mem_append]
      tauto
    have hne : validationErrors tc c ≠ [] := by
      intro h0
      rw [h0] at hmem'
      exact absurd hmem' (List.not_mem_nil _)
    refine ⟨validationErrors tc c, ?_, hmem'⟩
    unfold postInitE
    rw [if_neg hne]
  · intro hin hok
    have hfire : fireCabinErrs c = [] := by
      simp [fireCabinErrs, hf, hin]
    refine ⟨staged tc c, ?_⟩
    unfold postInitE
    rw [if_pos ((validationErrors_eq_nil_iff tc c).2
      ⟨hfire, hok.1, hok.2.1, hok.2.2.1, hok.2.2.2.1, hok.2.2.2.2⟩)]

/-- C4 witness: a fire lift with the whitelisted size 1400x2400 (and default
parameters) constructs; one with 1500x2400 (off the whitelist) fails with the
cabin-size message collected. -/
theorem c4_fire_whitelist_witness :
    (∃ c', postInitE ⟨2700, 100, 200⟩
        ({ lift_type := "fire", finished_car_width := 1400, finished_car_depth := 2400 } : LiftConfig)
      = .ok c') ∧
    (∃ es, postInitE ⟨2700, 100, 200⟩
        ({ lift_type := "fire", finished_car_width := 1500, finished_car_depth := 2400 } : LiftConfig)
      = .error es ∧
      fire_cabin_msg (pyInt (1500 : ℚ)) (pyInt (2400 : ℚ)) ∈ es) :=
  ⟨(c4_fire_whitelist ⟨2700, 100, 200⟩
      { lift_type := "fire", finished_car_width := 1400, finished_car_depth := 2400 } rfl).2
      (by decide) (by with_unfolding_all decide),
   (c4_fire_whitelist ⟨2700, 100, 200⟩
      { lift_type := "fire", finished_car_width := 1500, finished_car_depth := 2400 } rfl).1
      (by decide)⟩

/-- C5: the separator policy: separate shafts always get an RCC wall; a common
shaft gets an RCC wall when some lift is a fire lift, a steel beam when all
lifts are passenger lifts. -/
theorem c5_separator_policy (lifts : List LiftConfig) :
    determine_separator_type lifts false = "rcc_wall" ∧
    ((∃ l ∈ lifts, l.lift_type = "fire") → determine_separator_type lifts true = "rcc_wall") ∧
    ((∀ l ∈ lifts, l.lift_type = "passenger") → determine_separator_type lifts true = "steel_beam") := by
  refine ⟨rfl, ?_, ?_⟩
  · rintro ⟨l, hl, hfire⟩
    unfold determine_separator_type
    have : lifts.any (fun l => l.lift_type == "fire") = true := by
      rw [List.any_eq_true]
      exact ⟨l, hl, by simp [hfire]⟩
    simp [this]
  · intro hall
    unfold determine_separator_type
    have : lifts.any (fun l => l.lift_type == "fire") = false := by
      rw [List.any_eq_false]
      intro l hl
      simp [hall l hl]
    simp [this]

/-- C5 witness: `[fire, passenger]` in a common shaft gets an RCC wall;
`[passenger, passenger]` in a common shaft gets a steel beam; a single
passenger lift in separate shafts gets an RCC wall. -/
theorem c5_separator_policy_witness :
    determine_separator_type [{ } ] false = "rcc_wall" ∧
    determine_separator_type
      [{ lift_type := "fire", finished_car_width := 1400, finished_car_depth := 2400 }, { }]
      true = "rcc_wall" ∧
    determine_separator_type [{ }, { }] true = "steel_beam" :=
  ⟨(c5_separator_policy [{ }]).1,
   (c5_separator_policy
      [{ lift_type := "fire", finished_car_width := 1400, finished_car_depth := 2400 }, { }]).2.1
      ⟨{ lift_type := "fire", finished_car_width := 1400, finished_car_depth := 2400 },
        by simp, rfl⟩,
   (c5_separator_policy [{ }, { }]).2.2 (by decide)⟩

/-- C6: `validate_fire_lift_positions` fails exactly when some fire lift sits
at a position other than 0 in the bank (positions are `enumerate` indices); in
particular `[passenger, fire]` fails and `[fire, passenger]` passes. -/
theorem c6_fire_position (lifts : List LiftConfig) :
    validate_fire_lift_positions lifts ≠ .ok () ↔
      ∃ p ∈ lifts.enum, p.1 ≠ 0 ∧ p.2.lift_type = "fire" := by
  unfold validate_fire_lift_positions
  cases hfind : lifts.enum.find? (fun p => p.2.lift_type == "fire" && p.1 != 0) with
  | none =>
      simp only []
      constructor
      · intro h
        exact absurd rfl h
      · rintro ⟨p, hp, hidx, hfire⟩
        have hnone := List.find?_eq_none.mp hfind p hp
        simp [hfire, hidx] at hnone
  | some p =>
      simp only []
      constructor
      · intro _
        have hpred := List.find?_some hfind
        have hmem := List.mem_of_find?_eq_some hfind
        simp only [Bool.and_eq_true, beq_iff_eq, bne_iff_ne, ne_eq] at hpred
        exact ⟨p, hmem, hpred.2, hpred.1⟩
      · intro _
        simp

/-- C6 witness: a fire lift at index 1 makes validation fail; a fire lift at
index 0 (followed by a passenger lift) passes. -/
theorem c6_fire_position_witness :
    validate_fire_lift_positions
      [{ }, { lift_type := "fire", finished_car_width := 1400, finished_car_depth := 2400 }]
      ≠ .ok () ∧
    ¬ (validate_fire_lift_positions
      [{ lift_type := "fire", finished_car_width := 1400, finished_car_depth := 2400 }, { }]
      ≠ .ok ()) :=
  ⟨(c6_fire_position _).mpr (by decide),
   (not_congr (c6_fire_position _)).mpr (by decide)⟩

/-- C7: when a config is constructed with telescopic doors and both telescopic
extensions unspecified, construction fills them in (left
`0.5 x door_width + TELESCOPIC_LEFT_EXTENSION_EXTRA`, right
`TELESCOPIC_RIGHT_EXTENSION`) as a default-fill on the successfully
constructed object rather than failing validation. The `door_width` is the
constructed object's (for fire lifts the overwritten `FIRE_LIFT_DOOR_WIDTH`,
which is also the value the source's fill reads). -/
theorem c7_telescopic_defaults (tc : TelConsts) (c c' : LiftConfig)
    (h1 : c.door_opening_type = "telescopic") (h2 : c.telescopic_left_ext = none)
    (h3 : c.telescopic_right_ext = none) (h4 : postInitE tc c = .ok c') :
    c'.telescopic_left_ext
        = some ((0.5 : ℚ) * c'.door_width + tc.TELESCOPIC_LEFT_EXTENSION_EXTRA) ∧
      c'.telescopic_right_ext = some tc.TELESCOPIC_RIGHT_EXTENSION := by
  obtain ⟨_, rfl⟩ := (postInitE_ok_iff tc c c').1 h4
  have hd : (applyFireDoor c).door_opening_type = "telescopic" := by
    unfold applyFireDoor
    by_cases hf : c.lift_type = "fire" <;> simp [hf, h1]
  have hl : (applyFireDoor c).telescopic_left_ext = none := by
    unfold applyFireDoor
    by_cases hf : c.lift_type = "fire" <;> simp [hf, h2]
  have hr : (applyFireDoor c).telescopic_right_ext = none := by
    unfold applyFireDoor
    by_cases hf : c.lift_type = "fire" <;> simp [hf, h3]
  unfold staged applyTelescopicDefaults
  simp [hd, hl, hr]

/-- Fire lift with telescopic doors and unspecified extensions (C7 witness
input). -/
def cfgTele : LiftConfig :=
  { lift_type := "fire", finished_car_width := 1400, finished_car_depth := 2400,
    door_opening_type := "telescopic" }

/-- What C7's witness construction produces: door width overwritten to the
fire constant, telescopic extensions filled in (left `0.5*1200 + 100 = 700`,
right `200` for the sample constants `⟨2700, 100, 200⟩`). -/
def cfgTeleOut : LiftConfig :=
  { cfgTele with
    door_width := FIRE_LIFT_DOOR_WIDTH
    telescopic_left_ext := some 700
    telescopic_right_ext := some 200 }

/-- C7 witness: the sample telescopic fire lift constructs successfully with
both extensions auto-filled. -/
theorem c7_telescopic_defaults_witness :
    cfgTeleOut.telescopic_left_ext
        = some ((0.5 : ℚ) * cfgTeleOut.door_width
            + (⟨2700, 100, 200⟩ : TelConsts).TELESCOPIC_LEFT_EXTENSION_EXTRA) ∧
      cfgTeleOut.telescopic_right_ext
        = some (⟨2700, 100, 200⟩ : TelConsts).TELESCOPIC_RIGHT_EXTENSION :=
  c7_telescopic_defaults ⟨2700, 100, 200⟩ cfgTele cfgTeleOut rfl rfl rfl
    (by with_unfolding_all rfl)

/-- C10: fire-lift construction silently overwrites the caller's `door_width`
with `FIRE_LIFT_DOOR_WIDTH` (1200mm): every successfully constructed fire
config carries `door_width = FIRE_LIFT_DOOR_WIDTH` whatever was passed in,
and the final door-vs-structural-opening check reads the overwritten value
(so success forces `FIRE_LIFT_DOOR_WIDTH ≤ structural_opening_width`). -/
theorem c10_fire_door_overwrite (tc : TelConsts) (c c' : LiftConfig)
    (hf : c.lift_type = "fire") (h : postInitE tc c = .ok c') :
    c'.door_width = FIRE_LIFT_DOOR_WIDTH ∧
    FIRE_LIFT_DOOR_WIDTH ≤ c'.structural_opening_width ∧
    doorWidthErrs (staged tc c) = doorWidthErrs { c with door_width := FIRE_LIFT_DOOR_WIDTH } := by
  obtain ⟨hv, rfl⟩ := (postInitE_ok_iff tc c c').1 h
  have hdw : (staged tc c).door_width = FIRE_LIFT_DOOR_WIDTH := by
    rw [staged_door_width]
    simp [hf]
  refine ⟨hdw, ?_, ?_⟩
  · have hde := ((validationErrors_eq_nil_iff tc c).1 hv).2.2.2.2.2
    have hngt : ¬ (staged tc c).door_width > (staged tc c).structural_opening_width := by
      intro hgt
      have hne : doorWidthErrs (staged tc c) ≠ [] := by
        simp [doorWidthErrs, hgt]
      exact hne hde
    rw [hdw] at hngt
    exact not_lt.mp hngt
  · unfold doorWidthErrs
    rw [hdw, staged_structural_opening_width]

/-- Fire lift constructed with an absurd caller-supplied door width (C10
witness input). -/
def cfgFireBigDoor : LiftConfig :=
  { lift_type := "fire", finished_car_width := 1400, finished_car_depth := 2400,
    door_width := 9999 }

/-- C10 witness: the 9999mm door width passed in is silently replaced by the
1200mm fire constant on the constructed object, and the door-width check that
construction ran used 1200, not 9999. -/
theorem c10_fire_door_overwrite_witness :
    ({ cfgFireBigDoor with door_width := FIRE_LIFT_DOOR_WIDTH } : LiftConfig).door_width
        = FIRE_LIFT_DOOR_WIDTH ∧
    FIRE_LIFT_DOOR_WIDTH
        ≤ ({ cfgFireBigDoor with door_width := FIRE_LIFT_DOOR_WIDTH } : LiftConfig).structural_opening_width ∧
    doorWidthErrs (staged ⟨2700, 100, 200⟩ cfgFireBigDoor)
      = doorWidthErrs { cfgFireBigDoor with door_width := FIRE_LIFT_DOOR_WIDTH } :=
  c10_fire_door_overwrite ⟨2700, 100, 200⟩ cfgFireBigDoor
    { cfgFireBigDoor with door_width := FIRE_LIFT_DOOR_WIDTH } rfl (by with_unfolding_all rfl)

theorem pyMax_foldl_replicate (s : ℚ) : ∀ m : ℕ, (List.replicate m s).foldl max s = s := by
  intro m
  induction m with
  | zero => rfl
  | succ k ih => simpa [List.replicate, max_self] using ih

theorem pyMax_replicate (n : ℕ) (s : ℚ) (h : n ≠ 0) : pyMax (List.replicate n s) = s := by
  cases n with
  | zero => exact absurd rfl h
  | succ m => simpa [pyMax, List.replicate] using pyMax_foldl_replicate s m

theorem two_mul_half_sub_add (M w : ℚ) : 2 * ((M - w) / 2) + w = M := by ring

/-- C8: for every facing arrangement (both banks non-empty) whose constructor
succeeds, the total plan width is the larger bank width, the total depth is
bank 1's depth plus the lobby plus bank 2's depth where each bank's depth is
its maximum per-lift shaft depth plus two wall thicknesses, and each bank's
horizontal draw offset `(total_width - bank_width)/2` leaves equal margins on
both sides, i.e. centres the bank. -/
theorem c8_facing_geometry (tc : TelConsts) (lifts lifts_bank2 : List LiftConfig)
    (sdp wtp swtp lwp sbwp : Option ℚ) (ics : Bool) (g : SketchGeom)
    (h1 : lifts ≠ []) (h2 : lifts_bank2 ≠ [])
    (h : mkSketch tc lifts lifts_bank2 sdp wtp swtp lwp sbwp ics = .ok g) :
    g.total_width = max g.bank1_width g.bank2_width ∧
    g.total_depth = (pyMax g.shaft_depths + 2 * g.wall_thickness) + g.lobby_width
      + (pyMax g.shaft_depths_bank2 + 2 * g.wall_thickness) ∧
    2 * bank_x_offset g g.bank1_width + g.bank1_width = g.total_width ∧
    2 * bank_x_offset g g.bank2_width + g.bank2_width = g.total_width := by
  have hdepth : resolvedShaftDepth sdp lifts = pyMax (resolvedShaftDepths sdp lifts) := by
    unfold resolvedShaftDepth resolvedShaftDepths
    match sdp with
    | none => rfl
    | some s =>
        by_cases hs : s = 0
        · simp [hs]
        · simp [hs, pyMax_replicate lifts.length s (by simpa using h1)]
  unfold mkSketch at h
  repeat' split at h
  all_goals try exact Except.noConfusion h
  all_goals try (solve | (exfalso; simp_all [List.isEmpty_iff]))
  rw [Except.ok.injEq] at h
  subst h
  refine ⟨rfl, ?_, two_mul_half_sub_add _ _, two_mul_half_sub_add _ _⟩
  show (resolvedShaftDepth sdp lifts + 2 * pyOr wtp DEFAULT_WALL_THICKNESS)
      + pyOr lwp DEFAULT_LOBBY_WIDTH
      + (pyMax (lifts_bank2.map LiftConfig.effective_shaft_depth)
          + 2 * pyOr wtp DEFAULT_WALL_THICKNESS)
    = (pyMax (resolvedShaftDepths sdp lifts) + 2 * pyOr wtp DEFAULT_WALL_THICKNESS)
      + pyOr lwp DEFAULT_LOBBY_WIDTH
      + (pyMax (lifts_bank2.map LiftConfig.effective_shaft_depth)
          + 2 * pyOr wtp DEFAULT_WALL_THICKNESS)
  rw [hdepth]

/-- The geometry computed for two facing single-lift default passenger banks
(C8 witness): bank widths `2950 + 2*200 = 3350`, depths `2300 + 2*200 = 2700`
each, total depth `2700 + 4000 + 2700 = 9400`. -/
def mkSketchW : SketchGeom :=
  { num_lifts := 1, num_lifts_bank2 := 1,
    shaft_widths := [2950], shaft_depths := [2300],
    shaft_widths_bank2 := [2950], shaft_depths_bank2 := [2300],
    shaft_depth := 2300, max_shaft_depth_bank2 := 2300,
    wall_thickness := 200, shared_wall_thickness := 200,
    shared_wall_thickness_bank2 := 200, lobby_width := 4000,
    steel_beam_width := 150, separator_type := "rcc_wall",
    separator_type_bank2 := "rcc_wall", is_facing := true,
    total_width := 3350, total_depth := 9400,
    bank1_width := 3350, bank2_width := 3350,
    bank1_y := 6700, bank2_y := 0 }

/-- C8 witness: two facing single-lift passenger banks with default
parameters. -/
theorem c8_facing_geometry_witness :
    (mkSketchW).total_width = max (mkSketchW).bank1_width (mkSketchW).bank2_width ∧
    (mkSketchW).total_depth
        = (pyMax (mkSketchW).shaft_depths + 2 * (mkSketchW).wall_thickness)
          + (mkSketchW).lobby_width
          + (pyMax (mkSketchW).shaft_depths_bank2 + 2 * (mkSketchW).wall_thickness) ∧
    2 * bank_x_offset (mkSketchW) (mkSketchW).bank1_width + (mkSketchW).bank1_width
        = (mkSketchW).total_width ∧
    2 * bank_x_offset (mkSketchW) (mkSketchW).bank2_width + (mkSketchW).bank2_width
        = (mkSketchW).total_width :=
  c8_facing_geometry ⟨2700, 100, 200⟩ [{ }] [{ }] none none none none none false mkSketchW
    (by decide) (by decide) (by with_unfolding_all rfl)

/-- Closed form of the `x_pos` at which `_draw_multi_lift_bank` draws the
separator between the lift `a` and its successor, when `l₁` lists the lifts
before `a`: the left outer wall plus all earlier shaft widths plus one
separator width per earlier boundary. -/
def sepBoundaryX (wt swt : ℚ) (l₁ : List (ℚ × ℚ)) (a : ℚ × ℚ) : ℚ :=
  wt + (l₁.map Prod.fst).sum + (l₁.length : ℚ) * swt + a.1

theorem multi_bank_walk_cons (separator_type : String) (wt swt x prev : ℚ)
    (p : ℚ × ℚ) (rest : List (ℚ × ℚ)) :
    multi_bank_walk separator_type wt swt x prev (p :: rest)
      = sep_pieces separator_type wt swt x prev p.2
        ++ [DrawCmd.interior (x + swt) wt p.1 p.2,
            DrawCmd.wallSection (x + swt) (wt + p.2) p.1 wt]
        ++ multi_bank_walk separator_type wt swt (x + swt + p.1) p.2 rest := by
  obtain ⟨sw, sd⟩ := p
  rfl

theorem draw_multi_lift_bank_walls_cons (separator_type : String) (wt swt : ℚ)
    (p : ℚ × ℚ) (rest : List (ℚ × ℚ)) :
    draw_multi_lift_bank_walls separator_type wt swt (p :: rest)
      = [DrawCmd.wallSection 0 0 wt (p.2 + 2 * wt),
         DrawCmd.interior wt wt p.1 p.2, DrawCmd.wallSection wt (wt + p.2) p.1 wt]
        ++ multi_bank_walk separator_type wt swt (wt + p.1) p.2 rest := by
  obtain ⟨sw, sd⟩ := p
  rfl

theorem multi_bank_walk_pair_mem (separator_type : String) (wt swt : ℚ)
    (l₁ : List (ℚ × ℚ)) (a b : ℚ × ℚ) (l₂ : List (ℚ × ℚ)) (cmd : DrawCmd) :
    ∀ x prev : ℚ, cmd ∈ sep_pieces separator_type wt swt
      (x + ((l₁.map Prod.fst).sum + (l₁.length : ℚ) * swt) + swt + a.1) a.2 b.2 →
    cmd ∈ multi_bank_walk separator_type wt swt x prev (l₁ ++ a :: b :: l₂) := by
  induction l₁ with
  | nil =>
      intro x prev hc
      simp only [List.map_nil, List.sum_nil, List.length_nil, Nat.cast_zero, zero_mul,
        zero_add, add_zero] at hc
      rw [List.nil_append, multi_bank_walk_cons, multi_bank_walk_cons]
      exact List.mem_append_right _ (List.mem_append_left _ (List.mem_append_left _ hc))
  | cons p l₁ ih =>
      intro x prev hc
      rw [List.cons_append, multi_bank_walk_cons]
      refine List.mem_append_right _ ?_
      apply ih (x + swt + p.1) p.2
      have harg : x + swt + p.1 + ((l₁.map Prod.fst).sum + (l₁.length : ℚ) * swt) + swt + a.1
          = x + (((p :: l₁).map Prod.fst).sum + (((p :: l₁).length : ℕ) : ℚ) * swt) + swt + a.1 := by
        simp only [List.map_cons, List.sum_cons, List.length_cons]
        push_cast
        ring
      rw [harg]
      exact hc

theorem draw_pair_mem (separator_type : String) (wt swt : ℚ)
    (l₁ : List (ℚ × ℚ)) (a b : ℚ × ℚ) (l₂ : List (ℚ × ℚ)) (cmd : DrawCmd)
    (hc : cmd ∈ sep_pieces separator_type wt swt (sepBoundaryX wt swt l₁ a) a.2 b.2) :
    cmd ∈ draw_multi_lift_bank_walls separator_type wt swt (l₁ ++ a :: b :: l₂) := by
  cases l₁ with
  | nil =>
      unfold sepBoundaryX at hc
      simp only [List.map_nil, List.sum_nil, List.length_nil, Nat.cast_zero, zero_mul,
        add_zero] at hc
      rw [List.nil_append, draw_multi_lift_bank_walls_cons, multi_bank_walk_cons]
      exact List.mem_append_right _ (List.mem_append_left _ (List.mem_append_left _ hc))
  | cons p l₁ =>
      rw [List.cons_append, draw_multi_lift_bank_walls_cons]
      refine List.mem_append_right _ ?_
      apply multi_bank_walk_pair_mem separator_type wt swt l₁ a b l₂ cmd (wt + p.1) p.2
      have harg : wt + p.1 + ((l₁.map Prod.fst).sum + (l₁.length : ℚ) * swt) + swt + a.1
          = sepBoundaryX wt swt (p :: l₁) a := by
        unfold sepBoundaryX
        simp only [List.map_cons, List.sum_cons, List.length_cons]
        push_cast
        ring
      rw [harg]
      exact hc

/-- C9: between every pair of adjacent lifts `a`, `b` of a multi-lift bank
(given as `(shaft_width, shaft_depth)` pairs, `l₁` before and `l₂` after the
pair), `_draw_multi_lift_bank` draws the separator at the shared boundary to
the shallower depth `min a.2 b.2`: a steel beam element of length exactly
`min a.2 b.2` (with separate front/back wall pieces), or one RCC wall
rectangle of length `min a.2 b.2 + 2*wt` whose extra `2*wt` is the merged
front and back wall bands, so the separator between the wall faces spans
`min` in both cases. When the depths differ an additional wall segment of
length `deeper - shallower` closes the deeper lift's boundary: at the left
edge `x` of the boundary when the earlier lift `a` is deeper, at
`x + swt - wt` (the current lift's left wall) when `b` is deeper. -/
theorem c9_lshape_separator (separator_type : String) (wt swt : ℚ)
    (l₁ : List (ℚ × ℚ)) (a b : ℚ × ℚ) (l₂ : List (ℚ × ℚ)) :
    (separator_type = "steel_beam" →
      DrawCmd.steelBeam (sepBoundaryX wt swt l₁ a) wt swt (min a.2 b.2)
        ∈ draw_multi_lift_bank_walls separator_type wt swt (l₁ ++ a :: b :: l₂)) ∧
    (separator_type ≠ "steel_beam" →
      DrawCmd.wallSection (sepBoundaryX wt swt l₁ a) 0 swt (min a.2 b.2 + 2 * wt)
        ∈ draw_multi_lift_bank_walls separator_type wt swt (l₁ ++ a :: b :: l₂)) ∧
    (b.2 < a.2 →
      DrawCmd.wallSection (sepBoundaryX wt swt l₁ a) (wt + min a.2 b.2 + wt) wt (a.2 - b.2)
        ∈ draw_multi_lift_bank_walls separator_type wt swt (l₁ ++ a :: b :: l₂)) ∧
    (a.2 < b.2 →
      DrawCmd.wallSection (sepBoundaryX wt swt l₁ a + swt - wt) (wt + min a.2 b.2 + wt) wt
          (b.2 - a.2)
        ∈ draw_multi_lift_bank_walls separator_type wt swt (l₁ ++ a :: b :: l₂)) := by
  refine ⟨?_, ?_, ?_, ?_⟩
  · intro hs
    apply draw_pair_mem
    simp [sep_pieces, hs]
  · intro hs
    apply draw_pair_mem
    simp [sep_pieces, hs]
  · intro hgt
    apply draw_pair_mem
    have hm : min a.2 b.2 = b.2 := min_eq_right (le_of_lt hgt)
    rw [hm]
    simp [sep_pieces, hm, hgt]
  · intro hlt
    apply draw_pair_mem
    have hm : min a.2 b.2 = a.2 := min_eq_left (le_of_lt hlt)
    rw [hm]
    simp [sep_pieces, hm, hlt]

/-- C9 witness: two adjacent lifts of depths 2300 and 2600 in a steel-beam
bank (`wt = 200`, `swt = 150`) get a separator beam of length
`min(2300, 2600) = 2300` plus a closing wall segment of length
`2600 - 2300 = 300` on the deeper (second) lift's side. -/
theorem c9_lshape_separator_witness :
    DrawCmd.steelBeam (sepBoundaryX 200 150 [] ((2950 : ℚ), (2300 : ℚ))) 200 150
        (min 2300 2600)
      ∈ draw_multi_lift_bank_walls "steel_beam" 200 150
          ([] ++ ((2950 : ℚ), (2300 : ℚ)) :: ((2950 : ℚ), (2600 : ℚ)) :: []) ∧
    DrawCmd.wallSection (sepBoundaryX 200 150 [] ((2950 : ℚ), (2300 : ℚ)) + 150 - 200)
        (200 + min 2300 2600 + 200) 200 (2600 - 2300)
      ∈ draw_multi_lift_bank_walls "steel_beam" 200 150
          ([] ++ ((2950 : ℚ), (2300 : ℚ)) :: ((2950 : ℚ), (2600 : ℚ)) :: []) :=
  ⟨(c9_lshape_separator "steel_beam" 200 150 [] (2950, 2300) (2950, 2600) []).1 rfl,
   (c9_lshape_separator "steel_beam" 200 150 [] (2950, 2300) (2950, 2600) []).2.2.2
     (by decide)⟩

end ElevatorSketch
